import Mathlib

/-!
Shallow embedding of the status aggregation and degradation engine of
src/web_server.py: the JSON status operation (get_bot_status_json), the
dashboard data assembly (load_dashboard_data, get_demo_data,
get_ticker_data, get_dashboard_trading_history) and the structured content
that generate_dashboard_html hands to the out-of-scope HTML template.

Modelling conventions:
- prices and account amounts are rationals (the source passes floats
  through without arithmetic beyond construction);
- every fallible Python operation is an Except value carrying str(e);
- the Python string hash used for synthetic demo prices is an explicit
  function parameter, since its value is implementation defined;
- wall-clock timestamps and HTML/CSS rendering are out of scope per the
  specification and are omitted.
-/

namespace WebServer

/-- Credential artifact content after json.loads plus extraction of the two
required key fields (APCA-API-KEY-ID and APCA-API-SECRET-KEY); an Except
error models a parse failure or a missing key, both raised exceptions in
the source. -/
structure AuthKey where
  apiKeyId : String
  apiSecretKey : String
deriving DecidableEq

/-- Account snapshot returned by api.get_account, numeric fields already
converted by float(...). -/
structure Account where
  cash : Rat
  portfolio_value : Rat
  buying_power : Rat
  pattern_day_trader : Bool
  daytrade_count : Nat
deriving DecidableEq

/-- Market clock returned by api.get_clock. -/
structure Clock where
  is_open : Bool
  next_open : String
deriving DecidableEq

/-- Positions are only ever counted by the source, never inspected. -/
abbrev Position := Unit

/-- Behaviour of the alpaca REST session during one request; every call can
fail with a message (the str of the raised exception). -/
structure Broker where
  getAccount : Except String Account
  getClock : Except String Clock
  getPositions : Except String (List Position)
  getLatestTrade : String → Except String Rat

/-- Tabular ledger as parsed by pandas read_csv: column names plus rows of
cells (cells kept as strings; the source only moves them around). -/
structure DataFrame where
  cols : List String
  rows : List (List String)
deriving DecidableEq

/-- One row rendered as a record, as produced by to_dict applied per row. -/
abbrev Record := List (String × String)

/-- DataFrame.to_dict with orient records: each row zipped with the column
names. -/
def DataFrame.records (df : DataFrame) : List Record :=
  df.rows.map (fun r => df.cols.zip r)

/-- pandas drop(columns=[name]): remove every column with that name and the
cells paired with it. -/
def DataFrame.dropCol (df : DataFrame) (name : String) : DataFrame :=
  { cols := df.cols.filter (fun c => c != name),
    rows := df.rows.map (fun r =>
      ((df.cols.zip r).filter (fun kv => kv.1 != name)).map Prod.snd) }

/-- pandas tail(n): the last n rows. -/
def DataFrame.tailN (df : DataFrame) (n : Nat) : DataFrame :=
  { cols := df.cols, rows := df.rows.drop (df.rows.length - n) }

/-- External world read by one request: config artifacts, broker behaviour,
ledger file and first-trade marker. ordersCsv is none when Orders.csv is
absent, some (.error e) when read_csv raises, some (.ok df) when it
parses. tickersContent is the uppercased whitespace-split token list of
TICKERS/my_tickers.txt. -/
structure Env where
  authExists : Bool
  tickersExists : Bool
  authContent : Except String AuthKey
  tickersContent : List String
  broker : Broker
  ordersCsv : Option (Except String DataFrame)
  firstTradeExists : Bool

/-- Name pandas gives an anonymous leading index column. -/
def UNNAMED_COLUMN : String := "Unnamed: 0"

/-- Fixed demo price table of get_ticker_data (also the DEMO payload
tickers of the JSON status operation). -/
def demo_prices : List (String × Rat) :=
  [("AAPL", 175.25), ("TSLA", 245.80), ("AMZN", 135.90), ("MA", 425.60)]

/-- One entry of ticker_data. The source dict has keys symbol and price;
resolved additionally records which branch produced the entry (true exactly
when the live fetch succeeded), the typed fallback marker of section 9 of
the design. -/
structure TickerQuote where
  symbol : String
  price : Rat
  resolved : Bool
deriving DecidableEq

/-- demo_prices.get(ticker, 100.00 + hash(ticker) % 50): fixed table entry,
or a synthetic price derived from the (implementation defined) string
hash. -/
def demoPrice (hashFn : String → Nat) (ticker : String) : Rat :=
  match demo_prices.lookup ticker with
  | some p => p
  | none => 100 + ((hashFn ticker % 50 : Nat) : Rat)

/-- Body of one iteration of the loop of get_ticker_data: demo branch when
demo_mode is set or the api is None, otherwise a live fetch whose failure
falls back to demo_prices.get(ticker, 100.00). -/
def quoteFor (hashFn : String → Nat) (api : Option Broker) (demo_mode : Bool)
    (ticker : String) : TickerQuote :=
  match api, demo_mode with
  | none, _ =>
    { symbol := ticker, price := demoPrice hashFn ticker, resolved := false }
  | some _, true =>
    { symbol := ticker, price := demoPrice hashFn ticker, resolved := false }
  | some b, false =>
    match b.getLatestTrade ticker with
    | .ok p => { symbol := ticker, price := p, resolved := true }
    | .error _ =>
      { symbol := ticker, price := (demo_prices.lookup ticker).getD 100,
        resolved := false }

/-- The for loop of get_ticker_data, appending one quote per symbol. -/
def tickerLoop (hashFn : String → Nat) (api : Option Broker)
    (demo_mode : Bool) : List String → List TickerQuote
  | [] => []
  | t :: rest => quoteFor hashFn api demo_mode t :: tickerLoop hashFn api demo_mode rest

/-- get_ticker_data: only the first 4 tickers are processed (Cloud Run
performance cap). -/
def get_ticker_data (hashFn : String → Nat) (api : Option Broker)
    (tickers : List String) (demo_mode : Bool) : List TickerQuote :=
  tickerLoop hashFn api demo_mode (tickers.take 4)

/-- The common ledger preprocessing: drop the unnamed index column when it
is present in the schema. -/
def droppedDf (df : DataFrame) : DataFrame :=
  if UNNAMED_COLUMN ∈ df.cols then df.dropCol UNNAMED_COLUMN else df

/-- Last n rows of the preprocessed ledger as records. -/
def tailRecords (df : DataFrame) (n : Nat) : List Record :=
  ((droppedDf df).tailN n).records

/-- get_dashboard_trading_history: [] when the ledger is absent or
unreadable, otherwise the last 10 rows as records after dropping the
unnamed index column. -/
def get_dashboard_trading_history
    (ordersCsv : Option (Except String DataFrame)) : List Record :=
  match ordersCsv with
  | some (.ok df) => tailRecords df 10
  | _ => []

/-- Ledger read inlined in get_bot_status_json: the row count after the
column drop and the last 5 rows as records; (0, []) when the ledger is
absent or unreadable. -/
def readJsonTradingHistory
    (ordersCsv : Option (Except String DataFrame)) : Nat × List Record :=
  match ordersCsv with
  | some (.ok df) => ((droppedDf df).rows.length, tailRecords df 5)
  | _ => (0, [])

/-- Value stored for one ticker by the JSON status loop: the live price, or
0 on any fetch failure. -/
def jsonPriceOf (fetch : String → Except String Rat) (t : String) : Rat :=
  match fetch t with
  | .ok p => p
  | .error _ => 0

/-- Python dict assignment d[k] = v: update in place when the key is
already present, else append (insertion order preserved). -/
def dictInsert (d : List (String × Rat)) (k : String) (v : Rat) :
    List (String × Rat) :=
  if d.any (fun p => p.1 == k) then
    d.map (fun p => if p.1 == k then (k, v) else p)
  else d ++ [(k, v)]

/-- ticker_prices of get_bot_status_json: only the first 3 tickers, price 0
on a per-symbol fetch failure. -/
def jsonTickerPrices (fetch : String → Except String Rat)
    (tickers : List String) : List (String × Rat) :=
  (tickers.take 3).foldl (fun d t => dictInsert d t (jsonPriceOf fetch t)) []

/-- account sub-object of the LIVE JSON payload. -/
structure AccountOut where
  cash : Rat
  portfolio_value : Rat
  buying_power : Rat
  positions_count : Nat
deriving DecidableEq

/-- demo_data sub-object of the DEMO and ERROR JSON payloads; market_open
is present only in the DEMO one. -/
structure DemoData where
  market_open : Option Bool
  portfolio_value : Rat
  cash : Rat
  tickers : List (String × Rat)
deriving DecidableEq

/-- Fields of the LIVE JSON payload (the wall-clock timestamp is
omitted). -/
structure LiveStatus where
  market_open : Bool
  next_open : String
  account : AccountOut
  first_trade_made : Bool
  bot_mode : String
  tickers : List (String × Rat)
  total_trades : Nat
  recent_trades : List Record
deriving DecidableEq

/-- JSON object returned by get_bot_status_json, one constructor per object
shape the source can build. -/
inductive StatusPayload where
  | demo (status message : String) (demo_data : DemoData)
  | live (s : LiveStatus)
  | error (errMsg status message : String) (demo_data : DemoData)
deriving DecidableEq

/-- Fixed DEMO payload returned when a config artifact is missing. -/
def demoStatusPayload : StatusPayload :=
  .demo ("Demo Mode Active")
    ("Auth files not included for security - DevOps pipeline working!")
    { market_open := some true, portfolio_value := 25000, cash := 25000,
      tickers := [("AAPL", 175.25), ("TSLA", 245.80), ("AMZN", 135.90),
        ("MA", 425.60)] }

/-- ERROR payload built by the catch-all handler of get_bot_status_json. -/
def errorStatusPayload (e : String) : StatusPayload :=
  .error e ("Error") ("Unable to fetch bot status - falling back to demo mode")
    { market_open := none, portfolio_value := 25000, cash := 25000,
      tickers := [("AAPL", 175.25), ("TSLA", 245.80)] }

/-- Body of the try block of get_bot_status_json: existence check, then the
sequential fallible steps (auth parse, account, clock, positions), then the
assembled LIVE payload. -/
def get_bot_status_json_inner (env : Env) : Except String StatusPayload :=
  if !env.authExists || !env.tickersExists then .ok demoStatusPayload
  else match env.authContent with
  | .error e => .error e
  | .ok _key =>
    match env.broker.getAccount with
    | .error e => .error e
    | .ok account =>
      match env.broker.getClock with
      | .error e => .error e
      | .ok clock =>
        match env.broker.getPositions with
        | .error e => .error e
        | .ok positions =>
          .ok (.live
            { market_open := clock.is_open
              next_open := clock.next_open
              account :=
                { cash := account.cash
                  portfolio_value := account.portfolio_value
                  buying_power := account.buying_power
                  positions_count := positions.length }
              first_trade_made := env.firstTradeExists
              bot_mode :=
                if env.firstTradeExists then "1-minute analysis"
                else "30-minute analysis"
              tickers := jsonTickerPrices env.broker.getLatestTrade env.tickersContent
              total_trades := (readJsonTradingHistory env.ordersCsv).1
              recent_trades := (readJsonTradingHistory env.ordersCsv).2 })

/-- get_bot_status_json: the outer try/except converts any failure of the
live path into the ERROR payload carrying str(e). -/
def get_bot_status_json (env : Env) : StatusPayload :=
  match get_bot_status_json_inner env with
  | .ok p => p
  | .error e => errorStatusPayload e

/-- Dict returned by load_dashboard_data; demo_mode models
data.get with key demo_mode and default False. -/
structure LoadedData where
  api : Option Broker
  account : Account
  clock : Clock
  positions : List Position
  tickers : List String
  demo_mode : Bool

/-- DemoAccount of get_demo_data. -/
def demoAccount : Account :=
  { cash := 25000, portfolio_value := 25000, buying_power := 50000,
    pattern_day_trader := false, daytrade_count := 0 }

/-- DemoClock of get_demo_data. -/
def demoClock : Clock :=
  { is_open := true, next_open := "2025-10-28 09:30:00-04:00" }

/-- get_demo_data: synthetic data used when the real API is unavailable. -/
def get_demo_data : LoadedData :=
  { api := none, account := demoAccount, clock := demoClock, positions := [],
    tickers := ["AAPL", "TSLA", "AMZN", "MA"], demo_mode := true }

/-- Body of the try block of load_dashboard_data. -/
def load_dashboard_data_inner (env : Env) : Except String LoadedData :=
  if !env.authExists || !env.tickersExists then .ok get_demo_data
  else match env.authContent with
  | .error e => .error e
  | .ok _key =>
    match env.broker.getAccount with
    | .error e => .error e
    | .ok account =>
      match env.broker.getClock with
      | .error e => .error e
      | .ok clock =>
        match env.broker.getPositions with
        | .error e => .error e
        | .ok positions =>
          .ok { api := some env.broker, account := account, clock := clock,
                positions := positions, tickers := env.tickersContent,
                demo_mode := false }

/-- load_dashboard_data: any failure of the live path falls back to
get_demo_data. -/
def load_dashboard_data (env : Env) : LoadedData :=
  match load_dashboard_data_inner env with
  | .ok d => d
  | .error _ => get_demo_data

/-- Structured arguments generate_dashboard_html hands to the out-of-scope
HTML template. -/
structure DashboardView where
  demo_mode : Bool
  clock : Clock
  account : Account
  positions : List Position
  bot_mode : String
  first_trade_made : Bool
  ticker_data : List TickerQuote
  trading_history : List Record
deriving DecidableEq

/-- generate_dashboard_html up to the (out-of-scope) template call: load
the data (the branch for an empty data dict is unreachable because
load_dashboard_data always returns a full dict), resolve tickers, read the
ledger, compute the bot mode from the first-trade marker with the demo
override. -/
def generate_dashboard_view (hashFn : String → Nat) (env : Env) : DashboardView :=
  let data := load_dashboard_data env
  let ticker_data := get_ticker_data hashFn data.api data.tickers data.demo_mode
  let trading_history := get_dashboard_trading_history env.ordersCsv
  let first_trade_made := env.firstTradeExists
  let bot_mode :=
    if data.demo_mode then "DEMO MODE - Live API Not Connected"
    else if first_trade_made then "1-minute analysis"
    else "30-minute analysis (first trade)"
  { demo_mode := data.demo_mode, clock := data.clock, account := data.account,
    positions := data.positions, bot_mode := bot_mode,
    first_trade_made := first_trade_made, ticker_data := ticker_data,
    trading_history := trading_history }

/-- Which of the three JSON payload shapes was produced. -/
inductive ModeTag where
  | demo
  | live
  | error
deriving DecidableEq

/-- Tag of a payload: the three shapes are disjoint, so consumers can
distinguish them. -/
def StatusPayload.modeTag : StatusPayload → ModeTag
  | .demo _ _ _ => .demo
  | .live _ => .live
  | .error _ _ _ _ => .error

/-- Both config artifacts exist. -/
def configFilesPresent (env : Env) : Bool :=
  env.authExists && env.tickersExists

/-- Whether an Except value is a success. -/
def isOkE {α : Type} (x : Except String α) : Bool :=
  match x with
  | .ok _ => true
  | .error _ => false

/-- Every mandatory step of the live path succeeds: auth parse and the
three broker calls. -/
def liveFetchOk (env : Env) : Bool :=
  isOkE env.authContent && isOkE env.broker.getAccount &&
    isOkE env.broker.getClock && isOkE env.broker.getPositions

/-- first_trade_made flag and bot mode string of a LIVE payload. -/
def StatusPayload.botFields : StatusPayload → Option (Bool × String)
  | .live s => some (s.first_trade_made, s.bot_mode)
  | _ => none

/-- tickers dict of a LIVE payload. -/
def StatusPayload.liveTickers : StatusPayload → Option (List (String × Rat))
  | .live s => some s.tickers
  | _ => none

/-- demo_data tickers of a DEMO or ERROR payload. -/
def StatusPayload.fallbackTickers : StatusPayload → Option (List (String × Rat))
  | .demo _ _ d => some d.tickers
  | .error _ _ _ d => some d.tickers
  | .live _ => none

/-- Modelled from the spec words for the ledger reader: one record with the
anonymous leading index field removed. -/
def recordWithoutIndex (rec : Record) : Record :=
  rec.filter (fun kv => kv.1 != UNNAMED_COLUMN)

/-- Modelled from the spec words for the ledger reader: all ledger rows as
records, each without the anonymous index field. -/
def cleanedRecords (df : DataFrame) : List Record :=
  df.records.map recordWithoutIndex

/-- Demo quotes over the fixed default symbol list. -/
def demoTickerQuotes : List TickerQuote :=
  [{ symbol := "AAPL", price := 175.25, resolved := false },
   { symbol := "TSLA", price := 245.80, resolved := false },
   { symbol := "AMZN", price := 135.90, resolved := false },
   { symbol := "MA", price := 425.60, resolved := false }]

/-- Hash model: constant zero. -/
def hashZero : String → Nat := fun _ => 0

/-- Hash model: constant seven (any value the randomized Python string hash
can take modulo 50). -/
def hashSeven : String → Nat := fun _ => 7

/-- Broker on which every call raises BrokerUnavailable. -/
def downBroker : Broker :=
  { getAccount := .error ("BrokerUnavailable"),
    getClock := .error ("BrokerUnavailable"),
    getPositions := .error ("BrokerUnavailable"),
    getLatestTrade := fun _ => .error ("BrokerUnavailable") }

/-- Live account sample used by witnesses. -/
def liveAccount : Account :=
  { cash := 1000, portfolio_value := 2000, buying_power := 3000,
    pattern_day_trader := false, daytrade_count := 1 }

/-- Live clock sample used by witnesses. -/
def liveClock : Clock :=
  { is_open := true, next_open := "2026-10-13 09:30:00-04:00" }

/-- Broker whose mandatory calls succeed and whose per-symbol fetch
succeeds only for AAPL. -/
def mixedBroker : Broker :=
  { getAccount := .ok liveAccount,
    getClock := .ok liveClock,
    getPositions := .ok [],
    getLatestTrade := fun t =>
      if t == "AAPL" then .ok 189.5 else .error ("BrokerUnavailable") }

/-- Parsed credentials sample. -/
def baseAuth : AuthKey := { apiKeyId := "id", apiSecretKey := "secret" }

/-- Ledger sample with an anonymous leading index column. -/
def sampleDf : DataFrame :=
  { cols := ["Unnamed: 0", "Time", "Type", "Ticker", "Total"],
    rows := [["0", "09:31", "buy", "AAPL", "100.0"],
             ["1", "09:35", "sell", "AAPL", "105.0"]] }

/-- Environment: both artifacts present, credential artifact malformed. -/
def envMalformedAuth : Env :=
  { authExists := true, tickersExists := true,
    authContent := .error ("Expecting value"),
    tickersContent := ["AAPL"], broker := downBroker, ordersCsv := none,
    firstTradeExists := false }

/-- Environment: config present, every broker call fails. -/
def envBrokerDown : Env :=
  { authExists := true, tickersExists := true, authContent := .ok baseAuth,
    tickersContent := ["AAPL"], broker := downBroker, ordersCsv := none,
    firstTradeExists := false }

/-- Environment: config present, live path succeeds, TSLA fetch fails,
marker present, ledger present. -/
def envLive : Env :=
  { authExists := true, tickersExists := true, authContent := .ok baseAuth,
    tickersContent := ["AAPL", "TSLA"], broker := mixedBroker,
    ordersCsv := some (.ok sampleDf), firstTradeExists := true }

/-- Environment: missing config, but a ledger with rows is present. -/
def envDemoWithLedger : Env :=
  { authExists := false, tickersExists := true,
    authContent := .error ("FileNotFoundError"),
    tickersContent := [], broker := downBroker,
    ordersCsv := some (.ok sampleDf), firstTradeExists := false }

/-- Environment: missing config and no ledger. -/
def envDemoNoLedger : Env :=
  { authExists := false, tickersExists := false,
    authContent := .error ("FileNotFoundError"),
    tickersContent := [], broker := downBroker, ordersCsv := none,
    firstTradeExists := false }

/-! Helper lemmas about the ticker resolver. -/

theorem quoteFor_symbol (hashFn : String → Nat) (api : Option Broker)
    (demo_mode : Bool) (t : String) :
    (quoteFor hashFn api demo_mode t).symbol = t := by
  cases api with
  | none => rfl
  | some b =>
    cases demo_mode with
    | true => rfl
    | false =>
      cases hb : b.getLatestTrade t with
      | ok p => simp [quoteFor, hb]
      | error e => simp [quoteFor, hb]

theorem tickerLoop_length (hashFn : String → Nat) (api : Option Broker)
    (demo_mode : Bool) (l : List String) :
    (tickerLoop hashFn api demo_mode l).length = l.length := by
  induction l with
  | nil => rfl
  | cons t rest ih => simp [tickerLoop, ih]

theorem tickerLoop_map_symbol (hashFn : String → Nat) (api : Option Broker)
    (demo_mode : Bool) (l : List String) :
    (tickerLoop hashFn api demo_mode l).map (fun q => q.symbol) = l := by
  induction l with
  | nil => rfl
  | cons t rest ih => simp [tickerLoop, quoteFor_symbol, ih]

theorem tickerLoop_live_eq_map (hashFn : String → Nat) (b : Broker)
    (l : List String) :
    tickerLoop hashFn (some b) false l =
      l.map (fun t =>
        match b.getLatestTrade t with
        | .ok p => { symbol := t, price := p, resolved := true }
        | .error _ =>
          { symbol := t, price := (demo_prices.lookup t).getD 100,
            resolved := false }) := by
  induction l with
  | nil => rfl
  | cons t rest ih =>
    simp only [tickerLoop, List.map, ih]
    rfl

/-- C5: the ticker price resolver returns exactly min(K, length) quotes for
the fixed cap K = 4, in input order (the quote at each position carries the
corresponding input symbol), regardless of demo mode, of the api being
absent, and of per-symbol fetch outcomes. -/
theorem C5_resolver_cap (hashFn : String → Nat) (api : Option Broker)
    (tickers : List String) (demo_mode : Bool) :
    (get_ticker_data hashFn api tickers demo_mode).length = min 4 tickers.length
      ∧ (get_ticker_data hashFn api tickers demo_mode).map (fun q => q.symbol) =
          tickers.take 4 := by
  constructor
  · rw [get_ticker_data, tickerLoop_length, List.length_take]
  · rw [get_ticker_data, tickerLoop_map_symbol]

/-- C4 (amended): in LIVE mode the resolver processes the first 4 symbols
independently: a successful fetch yields the live price with resolved true,
a failed fetch yields resolved false with the fallback
demo_prices.get(ticker, 100.00) — the table entry (which coincides with the
demo rule) for table symbols, but the constant 100.00, not the synthetic
hash-derived demo price, for symbols absent from the table; sibling symbols
are unaffected and no exception escapes (the resolver is a total
function). -/
theorem C4_live_fallback (hashFn : String → Nat) (b : Broker)
    (tickers : List String) :
    get_ticker_data hashFn (some b) tickers false =
      (tickers.take 4).map (fun t =>
        match b.getLatestTrade t with
        | .ok p => { symbol := t, price := p, resolved := true }
        | .error _ =>
          { symbol := t, price := (demo_prices.lookup t).getD 100,
            resolved := false })
      ∧ ∀ t p, demo_prices.lookup t = some p → demoPrice hashFn t = p := by
  constructor
  · rw [get_ticker_data, tickerLoop_live_eq_map]
  · intro t p hp
    simp [demoPrice, hp]

/-- C4 witness: concrete instance of the amended claim with a failing fetch
for AAPL, whose fallback is the demo-table entry. -/
theorem C4_live_fallback_witness :
    get_ticker_data hashZero (some downBroker) ["AAPL"] false =
        (["AAPL"].take 4).map (fun t =>
          match downBroker.getLatestTrade t with
          | .ok p => { symbol := t, price := p, resolved := true }
          | .error _ =>
            { symbol := t, price := (demo_prices.lookup t).getD 100,
              resolved := false })
      ∧ demoPrice hashZero ("AAPL") = 175.25 :=
  ⟨(C4_live_fallback hashZero downBroker ["AAPL"]).1,
   (C4_live_fallback hashZero downBroker ["AAPL"]).2 ("AAPL") 175.25 rfl⟩

/-- C4 counterexample: for a symbol absent from the demo table (GOOG) under
a hash model where hash(GOOG) % 50 = 7, the live-failure fallback price is
100, while the demo-price rule used in demo mode gives 107 — the claim that
the live-failure fallback uses the same demo-price rule is false at this
input. -/
theorem C4_counterexample :
    get_ticker_data hashSeven (some downBroker) ["GOOG"] false =
        [{ symbol := "GOOG", price := 100, resolved := false }]
      ∧ demoPrice hashSeven ("GOOG") = 107
      ∧ ({ symbol := "GOOG", price := 100, resolved := false } : TickerQuote) ≠
          { symbol := "GOOG", price := demoPrice hashSeven ("GOOG"),
            resolved := false } := by
  have h2 : demoPrice hashSeven ("GOOG") = 107 := by
    have h : demo_prices.lookup ("GOOG") = none := rfl
    simp [demoPrice, h, hashSeven]
    norm_num
  refine ⟨rfl, h2, ?_⟩
  rw [h2]
  intro hEq
  have hp := congrArg TickerQuote.price hEq
  norm_num at hp

/-! Helper lemmas about the ledger reader. -/

theorem zip_filter_snd (n : String) :
    ∀ (cols row : List String),
      (cols.filter (fun c => c != n)).zip
          (((cols.zip row).filter (fun kv => kv.1 != n)).map Prod.snd)
        = (cols.zip row).filter (fun kv => kv.1 != n)
  | [], row => by simp
  | c :: cs, [] => by simp
  | c :: cs, r :: rs => by
    by_cases hc : c = n
    · have hcn : (c != n) = false := by simp [hc]
      simpa [List.filter_cons, hcn] using zip_filter_snd n cs rs
    · have hcn : (c != n) = true := by simp [hc]
      simp [List.filter_cons, hcn, zip_filter_snd n cs rs]

theorem records_dropCol (df : DataFrame) (n : String) :
    (df.dropCol n).records =
      df.records.map (fun rec => rec.filter (fun kv => kv.1 != n)) := by
  simp only [DataFrame.records, DataFrame.dropCol, List.map_map]
  apply List.map_congr_left
  intro r _
  exact zip_filter_snd n df.cols r

theorem cleanedRecords_length (df : DataFrame) :
    (cleanedRecords df).length = df.rows.length := by
  simp [cleanedRecords, DataFrame.records]

theorem tailRecords_eq (df : DataFrame) (n : Nat)
    (hU : UNNAMED_COLUMN ∈ df.cols) :
    tailRecords df n = (cleanedRecords df).drop (df.rows.length - n) := by
  have h1 : (df.dropCol UNNAMED_COLUMN).rows.length = df.rows.length := by
    simp [DataFrame.dropCol]
  have h2 : (df.dropCol UNNAMED_COLUMN).records = cleanedRecords df := by
    rw [records_dropCol]
    rfl
  calc tailRecords df n
      = ((df.dropCol UNNAMED_COLUMN).rows.drop (df.rows.length - n)).map
          (fun r => (df.dropCol UNNAMED_COLUMN).cols.zip r) := by
        simp only [tailRecords, droppedDf, if_pos hU, DataFrame.tailN,
          DataFrame.records, h1]
    _ = ((df.dropCol UNNAMED_COLUMN).records).drop (df.rows.length - n) := by
        rw [DataFrame.records, List.map_drop]
    _ = (cleanedRecords df).drop (df.rows.length - n) := by rw [h2]

theorem mem_cleaned_key_ne (df : DataFrame) (rec : Record)
    (h : rec ∈ cleanedRecords df) (kv : String × String) (hkv : kv ∈ rec) :
    kv.1 ≠ UNNAMED_COLUMN := by
  rcases List.mem_map.1 h with ⟨rec0, _, rfl⟩
  simp only [recordWithoutIndex] at hkv
  have hp := List.of_mem_filter hkv
  simpa using hp

/-- C7: when the ledger schema contains the anonymous leading index column,
the readers (dashboard variant, last 10 rows, and JSON variant, last 5
rows) return records in which that field never appears; the records are
exactly the last rows, in ledger order, of the original rows with the
anonymous field removed. -/
theorem C7_ledger_reader (df : DataFrame) (hU : UNNAMED_COLUMN ∈ df.cols) :
    (∀ rec ∈ get_dashboard_trading_history (some (.ok df)), ∀ kv ∈ rec,
        kv.1 ≠ UNNAMED_COLUMN)
      ∧ get_dashboard_trading_history (some (.ok df)) =
          (cleanedRecords df).drop ((cleanedRecords df).length - 10)
      ∧ (∀ rec ∈ (readJsonTradingHistory (some (.ok df))).2, ∀ kv ∈ rec,
          kv.1 ≠ UNNAMED_COLUMN)
      ∧ (readJsonTradingHistory (some (.ok df))).2 =
          (cleanedRecords df).drop ((cleanedRecords df).length - 5) := by
  have e10 : get_dashboard_trading_history (some (.ok df)) =
      (cleanedRecords df).drop ((cleanedRecords df).length - 10) := by
    rw [cleanedRecords_length]
    exact tailRecords_eq df 10 hU
  have e5 : (readJsonTradingHistory (some (.ok df))).2 =
      (cleanedRecords df).drop ((cleanedRecords df).length - 5) := by
    rw [cleanedRecords_length]
    exact tailRecords_eq df 5 hU
  refine ⟨?_, e10, ?_, e5⟩
  · intro rec hrec kv hkv
    rw [e10] at hrec
    exact mem_cleaned_key_ne df rec (List.drop_subset _ _ hrec) kv hkv
  · intro rec hrec kv hkv
    rw [e5] at hrec
    exact mem_cleaned_key_ne df rec (List.drop_subset _ _ hrec) kv hkv

/-- C7 witness: the equations of the claim at a concrete two-row ledger
with an anonymous index column. -/
theorem C7_ledger_reader_witness :
    get_dashboard_trading_history (some (.ok sampleDf)) =
        (cleanedRecords sampleDf).drop ((cleanedRecords sampleDf).length - 10)
      ∧ (readJsonTradingHistory (some (.ok sampleDf))).2 =
        (cleanedRecords sampleDf).drop ((cleanedRecords sampleDf).length - 5) :=
  ⟨(C7_ledger_reader sampleDf (by decide)).2.1,
   (C7_ledger_reader sampleDf (by decide)).2.2.2⟩

/-! Helper lemmas about the JSON ticker dict. -/

theorem dictInsert_val (P : String → Rat) (d : List (String × Rat)) (k : String)
    (hd : ∀ kv ∈ d, kv.2 = P kv.1) :
    ∀ kv ∈ dictInsert d k (P k), kv.2 = P kv.1 := by
  intro kv hkv
  unfold dictInsert at hkv
  by_cases hc : d.any (fun p => p.1 == k) = true
  · rw [if_pos hc] at hkv
    rcases List.mem_map.1 hkv with ⟨p, hpd, hEq⟩
    by_cases hpk : (p.1 == k) = true
    · rw [if_pos hpk] at hEq
      have : p.1 = k := by simpa using hpk
      subst hEq
      simp [← this]
    · rw [if_neg hpk] at hEq
      subst hEq
      exact hd p hpd
  · rw [if_neg hc] at hkv
    rcases List.mem_append.1 hkv with h | h
    · exact hd kv h
    · have : kv = (k, P k) := by simpa using h
      subst this
      rfl

theorem dictInsert_mem_keys (d : List (String × Rat)) (k t : String) (v : Rat)
    (h : t ∈ d.map Prod.fst ∨ t = k) :
    t ∈ (dictInsert d k v).map Prod.fst := by
  unfold dictInsert
  by_cases hc : d.any (fun p => p.1 == k) = true
  · rw [if_pos hc]
    have hkeys : (d.map (fun p => if p.1 == k then (k, v) else p)).map Prod.fst =
        d.map Prod.fst := by
      rw [List.map_map]
      apply List.map_congr_left
      intro p _
      by_cases hpk : (p.1 == k) = true
      · have : p.1 = k := by simpa using hpk
        simp [hpk, Function.comp, this]
      · simp [hpk, Function.comp]
    rw [hkeys]
    rcases h with h | rfl
    · exact h
    · rcases List.any_eq_true.1 hc with ⟨p, hpd, hpk⟩
      have : p.1 = t := by simpa using hpk
      exact this ▸ List.mem_map_of_mem Prod.fst hpd
  · rw [if_neg hc]
    rcases h with h | rfl
    · simp [List.mem_append]
      left
      simpa using h
    · simp

theorem jsonFold_val (f : String → Except String Rat) :
    ∀ (ts : List String) (d : List (String × Rat)),
      (∀ kv ∈ d, kv.2 = jsonPriceOf f kv.1) →
      ∀ kv ∈ ts.foldl (fun d t => dictInsert d t (jsonPriceOf f t)) d,
        kv.2 = jsonPriceOf f kv.1
  | [], _, hd => hd
  | t :: ts, d, hd =>
    jsonFold_val f ts (dictInsert d t (jsonPriceOf f t))
      (dictInsert_val (jsonPriceOf f) d t hd)

theorem jsonFold_keys (f : String → Except String Rat) :
    ∀ (ts : List String) (d : List (String × Rat)) (t : String),
      (t ∈ d.map Prod.fst ∨ t ∈ ts) →
      t ∈ (ts.foldl (fun d t => dictInsert d t (jsonPriceOf f t)) d).map Prod.fst
  | [], _, t, h => by
    rcases h with h | h
    · exact h
    · simp at h
  | u :: ts, d, t, h => by
    apply jsonFold_keys f ts (dictInsert d u (jsonPriceOf f u)) t
    rcases h with hd | hts
    · exact Or.inl (dictInsert_mem_keys d u t (jsonPriceOf f u) (Or.inl hd))
    · rcases List.mem_cons.1 hts with rfl | h2
      · exact Or.inl (dictInsert_mem_keys d t t (jsonPriceOf f t) (Or.inr rfl))
      · exact Or.inr h2

theorem lookup_invariant (P : String → Rat) :
    ∀ (l : List (String × Rat)) (t : String),
      (∀ kv ∈ l, kv.2 = P kv.1) → t ∈ l.map Prod.fst →
      l.lookup t = some (P t)
  | [], t, _, hmem => by simp at hmem
  | (k, v) :: l, t, hinv, hmem => by
    by_cases htk : t = k
    · have hv : v = P k := hinv (k, v) (List.mem_cons_self _ _)
      simp [List.lookup, htk, hv]
    · have hmem2 : t ∈ l.map Prod.fst := by
        rcases List.mem_cons.1 hmem with h | h
        · exact absurd h htk
        · exact h
      have ih := lookup_invariant P l t
        (fun kv h => hinv kv (List.mem_cons_of_mem _ h)) hmem2
      have hbk : (t == k) = false := by simp [htk]
      simp [List.lookup, hbk, ih]

theorem jsonTickerPrices_lookup (f : String → Except String Rat)
    (ts : List String) (t : String) (ht : t ∈ ts.take 3) :
    (jsonTickerPrices f ts).lookup t = some (jsonPriceOf f t) := by
  apply lookup_invariant (jsonPriceOf f)
  · exact jsonFold_val f (ts.take 3) [] (by simp)
  · exact jsonFold_keys f (ts.take 3) [] t (Or.inr ht)

/-- C10: on the JSON status path in LIVE mode the tickers dict is built
with priority for the live price and 0 on a per-symbol fetch failure: for
every symbol among the first 3 whose fetch fails the reported price is
exactly 0 (not a demo-table or synthetic fallback), while symbols whose
fetch succeeds keep their live price. -/
theorem C10_json_zero_price (env : Env) (k : AuthKey) (a : Account)
    (c : Clock) (ps : List Position)
    (hA : env.authExists = true) (hT : env.tickersExists = true)
    (hK : env.authContent = .ok k) (hAcc : env.broker.getAccount = .ok a)
    (hClk : env.broker.getClock = .ok c)
    (hPos : env.broker.getPositions = .ok ps) :
    (get_bot_status_json env).liveTickers =
        some (jsonTickerPrices env.broker.getLatestTrade env.tickersContent)
      ∧ (∀ t e, t ∈ env.tickersContent.take 3 →
          env.broker.getLatestTrade t = .error e →
          (jsonTickerPrices env.broker.getLatestTrade env.tickersContent).lookup t
            = some 0)
      ∧ (∀ t p, t ∈ env.tickersContent.take 3 →
          env.broker.getLatestTrade t = .ok p →
          (jsonTickerPrices env.broker.getLatestTrade env.tickersContent).lookup t
            = some p) := by
  refine ⟨?_, ?_, ?_⟩
  · simp [get_bot_status_json, get_bot_status_json_inner, hA, hT, hK, hAcc,
      hClk, hPos, StatusPayload.liveTickers]
  · intro t e ht hfe
    rw [jsonTickerPrices_lookup env.broker.getLatestTrade env.tickersContent t ht]
    simp [jsonPriceOf, hfe]
  · intro t p ht hfp
    rw [jsonTickerPrices_lookup env.broker.getLatestTrade env.tickersContent t ht]
    simp [jsonPriceOf, hfp]

/-- C10 witness: concrete live environment in which the AAPL fetch succeeds
with price 189.5 and the TSLA fetch fails; the dict reports 0 for TSLA and
the live price for AAPL. -/
theorem C10_json_zero_price_witness :
    (get_bot_status_json envLive).liveTickers =
        some (jsonTickerPrices envLive.broker.getLatestTrade envLive.tickersContent)
      ∧ (jsonTickerPrices envLive.broker.getLatestTrade
          envLive.tickersContent).lookup ("TSLA") = some 0
      ∧ (jsonTickerPrices envLive.broker.getLatestTrade
          envLive.tickersContent).lookup ("AAPL") = some 189.5 := by
  have h := C10_json_zero_price envLive baseAuth liveAccount liveClock []
    rfl rfl rfl rfl rfl rfl
  exact ⟨h.1, h.2.1 ("TSLA") ("BrokerUnavailable") (by decide) rfl,
    h.2.2 ("AAPL") 189.5 (by decide) rfl⟩

/-! Theorems about the status aggregation paths. -/

/-- C1: the aggregation never lets an exception reach the caller (both
operations are total functions of the environment here because every
raising source operation is modelled and caught) and the produced payload
is always one of the three tagged shapes, characterised exactly: DEMO when
a config artifact is missing, LIVE when configuration and all mandatory
live steps succeed, ERROR otherwise; the dashboard view is likewise always
produced, flagged demo exactly when the live path was not completed. -/
theorem C1_always_tagged (hashFn : String → Nat) (env : Env) :
    (get_bot_status_json env).modeTag =
        (if configFilesPresent env then
          (if liveFetchOk env then ModeTag.live else ModeTag.error)
        else ModeTag.demo)
      ∧ (generate_dashboard_view hashFn env).demo_mode =
          !(configFilesPresent env && liveFetchOk env) := by
  cases hA : env.authExists <;> cases hT : env.tickersExists <;>
    cases hK : env.authContent <;> cases hAcc : env.broker.getAccount <;>
    cases hClk : env.broker.getClock <;> cases hPos : env.broker.getPositions <;>
    simp [get_bot_status_json, get_bot_status_json_inner,
      generate_dashboard_view, load_dashboard_data, load_dashboard_data_inner,
      configFilesPresent, liveFetchOk, isOkE, StatusPayload.modeTag,
      errorStatusPayload, demoStatusPayload, get_demo_data, hA, hT, hK, hAcc,
      hClk, hPos]

/-- C2 (amended): when both artifacts exist but the credential artifact is
malformed, the HTML dashboard path degrades to the same demo payload as
absent artifacts, but the JSON status path returns the ERROR payload (the
parse failure is caught by the aggregate handler, not by a config check),
not the DEMO payload. -/
theorem C2_malformed_auth (hashFn : String → Nat) (env : Env) (e : String)
    (hA : env.authExists = true) (hT : env.tickersExists = true)
    (hK : env.authContent = .error e) :
    get_bot_status_json env = errorStatusPayload e
      ∧ load_dashboard_data env = get_demo_data
      ∧ generate_dashboard_view hashFn env =
          generate_dashboard_view hashFn { env with authExists := false } := by
  have h1 : get_bot_status_json env = errorStatusPayload e := by
    simp [get_bot_status_json, get_bot_status_json_inner, hA, hT, hK]
  have h2 : load_dashboard_data env = get_demo_data := by
    simp [load_dashboard_data, load_dashboard_data_inner, hA, hT, hK]
  have h3 : load_dashboard_data { env with authExists := false } = get_demo_data := by
    simp [load_dashboard_data, load_dashboard_data_inner]
  refine ⟨h1, h2, ?_⟩
  simp [generate_dashboard_view, h2, h3]

/-- C2 witness: concrete environment with both artifacts present and an
unparsable credential artifact. -/
theorem C2_malformed_auth_witness :
    get_bot_status_json envMalformedAuth = errorStatusPayload ("Expecting value")
      ∧ load_dashboard_data envMalformedAuth = get_demo_data :=
  ⟨(C2_malformed_auth hashZero envMalformedAuth ("Expecting value") rfl rfl rfl).1,
   (C2_malformed_auth hashZero envMalformedAuth ("Expecting value") rfl rfl rfl).2.1⟩

/-- C2 counterexample: with both artifacts present and a malformed
credential artifact, the JSON status payload is the ERROR payload, which is
not the DEMO payload produced when the artifacts are absent — the claim
that the two payloads coincide is false at this input. -/
theorem C2_counterexample :
    get_bot_status_json envMalformedAuth = errorStatusPayload ("Expecting value")
      ∧ get_bot_status_json envMalformedAuth ≠ demoStatusPayload := by
  constructor
  · rfl
  · intro h
    have h2 : errorStatusPayload ("Expecting value") = demoStatusPayload := by
      rw [← h]
      rfl
    simp [errorStatusPayload, demoStatusPayload] at h2

/-- C3 (amended): with configuration present and a mandatory broker call
failing, the JSON payload is the error-fallback object: it carries the
raised failure message and the status tag Error, its only ticker data is
the fixed two-entry demo table (AAPL, TSLA) — not an empty sequence — and
it has no live tickers or trades fields at all. -/
theorem C3_broker_failure (env : Env) (e : String) (k : AuthKey)
    (hA : env.authExists = true) (hT : env.tickersExists = true)
    (hK : env.authContent = .ok k)
    (hFail : env.broker.getAccount = .error e
      ∨ ((∃ a, env.broker.getAccount = .ok a) ∧ env.broker.getClock = .error e)
      ∨ ((∃ a, env.broker.getAccount = .ok a)
          ∧ (∃ c, env.broker.getClock = .ok c)
          ∧ env.broker.getPositions = .error e)) :
    get_bot_status_json env = errorStatusPayload e
      ∧ (get_bot_status_json env).fallbackTickers =
          some [("AAPL", 175.25), ("TSLA", 245.80)]
      ∧ (get_bot_status_json env).modeTag = ModeTag.error
      ∧ (get_bot_status_json env).liveTickers = none := by
  have h1 : get_bot_status_json env = errorStatusPayload e := by
    rcases hFail with hAcc | ⟨⟨a, hAcc⟩, hClk⟩ | ⟨⟨a, hAcc⟩, ⟨c, hClk⟩, hPos⟩
    · simp [get_bot_status_json, get_bot_status_json_inner, hA, hT, hK, hAcc]
    · simp [get_bot_status_json, get_bot_status_json_inner, hA, hT, hK, hAcc, hClk]
    · simp [get_bot_status_json, get_bot_status_json_inner, hA, hT, hK, hAcc,
        hClk, hPos]
  rw [h1]
  exact ⟨rfl, rfl, rfl, rfl⟩

/-- C3 witness: concrete environment with configuration present and
getAccount raising BrokerUnavailable. -/
theorem C3_broker_failure_witness :
    get_bot_status_json envBrokerDown = errorStatusPayload ("BrokerUnavailable")
      ∧ (get_bot_status_json envBrokerDown).modeTag = ModeTag.error :=
  ⟨(C3_broker_failure envBrokerDown ("BrokerUnavailable") baseAuth rfl rfl rfl
      (Or.inl rfl)).1,
   (C3_broker_failure envBrokerDown ("BrokerUnavailable") baseAuth rfl rfl rfl
      (Or.inl rfl)).2.2.1⟩

/-- C3 counterexample: with configuration present and getAccount failing,
the ERROR payload ticker data is the nonempty two-entry demo table, so the
claim that the payload includes an empty tickers sequence is false at this
input. -/
theorem C3_counterexample :
    get_bot_status_json envBrokerDown = errorStatusPayload ("BrokerUnavailable")
      ∧ (get_bot_status_json envBrokerDown).fallbackTickers =
          some [("AAPL", 175.25), ("TSLA", 245.80)]
      ∧ some [("AAPL", (175.25 : Rat)), ("TSLA", 245.80)] ≠
          some ([] : List (String × Rat)) := by
  refine ⟨rfl, rfl, ?_⟩
  simp

/-- C6 (amended): with missing configuration the dashboard state is the
demo one — demo flag set, synthetic account (cash 25000, portfolio value
25000), synthetic clock with the market open, the four fixed demo quotes
over the default symbol list all with resolved false — but the trade
sequence is whatever the ledger reader returns for the (still consulted)
ledger file: it is empty exactly when the ledger is absent or unreadable,
not unconditionally. -/
theorem C6_demo_state (hashFn : String → Nat) (env : Env)
    (hCfg : configFilesPresent env = false) :
    generate_dashboard_view hashFn env =
        { demo_mode := true, clock := demoClock, account := demoAccount,
          positions := [],
          bot_mode := "DEMO MODE - Live API Not Connected",
          first_trade_made := env.firstTradeExists,
          ticker_data := demoTickerQuotes,
          trading_history := get_dashboard_trading_history env.ordersCsv }
      ∧ (env.ordersCsv = none →
          get_dashboard_trading_history env.ordersCsv = []) := by
  have hload : load_dashboard_data env = get_demo_data := by
    simp only [configFilesPresent, Bool.and_eq_false_iff] at hCfg
    rcases hCfg with h | h <;>
      simp [load_dashboard_data, load_dashboard_data_inner, h]
  constructor
  · simp only [generate_dashboard_view, hload]
    rfl
  · intro h
    rw [h]
    rfl

/-- C6 witness: concrete environment with missing configuration and no
ledger. -/
theorem C6_demo_state_witness :
    generate_dashboard_view hashZero envDemoNoLedger =
        { demo_mode := true, clock := demoClock, account := demoAccount,
          positions := [],
          bot_mode := "DEMO MODE - Live API Not Connected",
          first_trade_made := envDemoNoLedger.firstTradeExists,
          ticker_data := demoTickerQuotes,
          trading_history := get_dashboard_trading_history envDemoNoLedger.ordersCsv }
      ∧ get_dashboard_trading_history envDemoNoLedger.ordersCsv = [] :=
  ⟨(C6_demo_state hashZero envDemoNoLedger rfl).1,
   (C6_demo_state hashZero envDemoNoLedger rfl).2 rfl⟩

/-- C6 counterexample: with missing configuration but a readable two-row
ledger the demo dashboard state carries a nonempty trade sequence — the
claim that the missing-config state always has an empty trade sequence is
false at this input. -/
theorem C6_counterexample :
    (generate_dashboard_view hashZero envDemoWithLedger).demo_mode = true
      ∧ (generate_dashboard_view hashZero envDemoWithLedger).trading_history =
          [[("Time", "09:31"), ("Type", "buy"), ("Ticker", "AAPL"),
            ("Total", "100.0")],
           [("Time", "09:35"), ("Type", "sell"), ("Ticker", "AAPL"),
            ("Total", "105.0")]]
      ∧ (generate_dashboard_view hashZero envDemoWithLedger).trading_history ≠
          [] := by
  refine ⟨rfl, rfl, ?_⟩
  have h2 : (generate_dashboard_view hashZero envDemoWithLedger).trading_history =
      [[("Time", "09:31"), ("Type", "buy"), ("Ticker", "AAPL"),
        ("Total", "100.0")],
       [("Time", "09:35"), ("Type", "sell"), ("Ticker", "AAPL"),
        ("Total", "105.0")]] := rfl
  rw [h2]
  simp

/-- C8: on the LIVE path the bot phase is a function of the first-trade
marker alone — the ledger argument is universally quantified, so any
ledger state yields the same bot fields: marker absent gives the
30-minute (first) analysis phase, marker present the 1-minute (steady)
phase, on both the JSON payload and the dashboard view. -/
theorem C8_bot_phase (hashFn : String → Nat) (env : Env)
    (ledger : Option (Except String DataFrame)) (k : AuthKey) (a : Account)
    (c : Clock) (ps : List Position)
    (hA : env.authExists = true) (hT : env.tickersExists = true)
    (hK : env.authContent = .ok k) (hAcc : env.broker.getAccount = .ok a)
    (hClk : env.broker.getClock = .ok c)
    (hPos : env.broker.getPositions = .ok ps) :
    (get_bot_status_json { env with ordersCsv := ledger }).botFields =
        some (env.firstTradeExists,
          if env.firstTradeExists then "1-minute analysis"
          else "30-minute analysis")
      ∧ (generate_dashboard_view hashFn
          { env with ordersCsv := ledger }).first_trade_made =
          env.firstTradeExists
      ∧ (generate_dashboard_view hashFn
          { env with ordersCsv := ledger }).bot_mode =
          (if env.firstTradeExists then "1-minute analysis"
           else "30-minute analysis (first trade)") := by
  refine ⟨?_, ?_, ?_⟩ <;>
    simp [get_bot_status_json, get_bot_status_json_inner,
      generate_dashboard_view, load_dashboard_data, load_dashboard_data_inner,
      StatusPayload.botFields, hA, hT, hK, hAcc, hClk, hPos]

/-- C8 witness: concrete live environment with the marker present. -/
theorem C8_bot_phase_witness :
    (get_bot_status_json envLive).botFields = some (true, "1-minute analysis") := by
  have h := (C8_bot_phase hashZero envLive envLive.ordersCsv baseAuth
    liveAccount liveClock [] rfl rfl rfl rfl rfl rfl).1
  exact h

/-- C9: every failure while loading live data on the HTML dashboard path
(config parse failure or any mandatory broker-call failure) yields exactly
the demo data used for missing configuration, flagged demo; the resulting
view is equal to the view of the same environment with the credential
artifact absent, so that path never produces an ERROR-tagged state and a
broker outage is indistinguishable from absent configuration there. -/
theorem C9_html_failure_demo (hashFn : String → Nat) (env : Env)
    (hCfg : configFilesPresent env = true) (hFail : liveFetchOk env = false) :
    load_dashboard_data env = get_demo_data
      ∧ (generate_dashboard_view hashFn env).demo_mode = true
      ∧ generate_dashboard_view hashFn env =
          generate_dashboard_view hashFn { env with authExists := false } := by
  have hA : env.authExists = true := by
    simp only [configFilesPresent, Bool.and_eq_true] at hCfg
    exact hCfg.1
  have hT : env.tickersExists = true := by
    simp only [configFilesPresent, Bool.and_eq_true] at hCfg
    exact hCfg.2
  have hload : load_dashboard_data env = get_demo_data := by
    cases hK : env.authContent with
    | error e => simp [load_dashboard_data, load_dashboard_data_inner, hA, hT, hK]
    | ok kk =>
      cases hAcc : env.broker.getAccount with
      | error e =>
        simp [load_dashboard_data, load_dashboard_data_inner, hA, hT, hK, hAcc]
      | ok a =>
        cases hClk : env.broker.getClock with
        | error e =>
          simp [load_dashboard_data, load_dashboard_data_inner, hA, hT, hK,
            hAcc, hClk]
        | ok c =>
          cases hPos : env.broker.getPositions with
          | error e =>
            simp [load_dashboard_data, load_dashboard_data_inner, hA, hT, hK,
              hAcc, hClk, hPos]
          | ok ps =>
            exfalso
            simp [liveFetchOk, isOkE, hK, hAcc, hClk, hPos] at hFail
  have hload2 : load_dashboard_data { env with authExists := false } =
      get_demo_data := by
    simp [load_dashboard_data, load_dashboard_data_inner]
  refine ⟨hload, ?_, ?_⟩
  · simp [generate_dashboard_view, hload, get_demo_data]
  · simp [generate_dashboard_view, hload, hload2]

/-- C9 witness: concrete environment with configuration present and every
broker call failing. -/
theorem C9_html_failure_demo_witness :
    load_dashboard_data envBrokerDown = get_demo_data
      ∧ (generate_dashboard_view hashZero envBrokerDown).demo_mode = true :=
  ⟨(C9_html_failure_demo hashZero envBrokerDown rfl rfl).1,
   (C9_html_failure_demo hashZero envBrokerDown rfl rfl).2.1⟩

end WebServer
